import Mathlib

/-
  Shallow embedding of src/src/webchat-ui/components/WebchatUI.tsx.

  The WebchatUI React component is modelled as a record of props, state and
  instance fields, together with an environment holding the page-global
  resources it touches (the document title, the set of live interval timers,
  and a counter of notification-sound plays).  Every lifecycle method that
  reads `config.settings.<field>` throws a TypeError in JavaScript when
  `config.settings` is undefined; those methods are therefore modelled in the
  `Except String` monad, erroring exactly where the source would throw.
  JavaScript truthiness of optional boolean settings (undefined is falsy) is
  modelled by `truthy`, and of optional strings by `jsOr` / non-emptiness.
-/

namespace Webchat

/-- A chat message.  `IMessage` is opaque in the source; only its textual
content is observable here, through `getTextFromMessage`. -/
structure IMessage where
  text : String
deriving DecidableEq, Repr

/-- Modelled from the spec: `getTextFromMessage` (webchat/helper/message, not
under src/) extracts the textual content of a message. -/
def getTextFromMessage (m : IMessage) : String := m.text

/-- A message plugin: either the built-in regular-message plugin or an opaque
host-supplied plugin identified by a number. -/
inductive MessagePlugin where
  | regular
  | host (id : Nat)
deriving DecidableEq, Repr

/-- An input plugin: either the built-in text-input plugin or an opaque
host-supplied plugin identified by a number. -/
inductive InputPlugin where
  | text
  | host (id : Nat)
deriving DecidableEq, Repr

/-- The built-in regular message plugin (plugins/message/regular). -/
def regularMessagePlugin : MessagePlugin := MessagePlugin.regular

/-- The built-in text input plugin (plugins/input/text). -/
def textInputPlugin : InputPlugin := InputPlugin.text

/-- The optional settings block of the webchat config; every field is
optional in the source (`undefined` when absent). -/
structure IWebchatSettings where
  colorScheme : Option String
  title : Option String
  headerLogoUrl : Option String
  disableBranding : Option Bool
  disableToggleButton : Option Bool
  enableConnectionStatusIndicator : Option Bool
  enableUnreadMessageTitleIndicator : Option Bool
  enableUnreadMessagePreview : Option Bool
  enableUnreadMessageSound : Option Bool
  enableUnreadMessageBadge : Option Bool
  unreadMessageTitleText : Option String
deriving DecidableEq, Repr

/-- A settings block with every optional setting absent. -/
def noSettings : IWebchatSettings :=
  ⟨none, none, none, none, none, none, none, none, none, none, none⟩

/-- The webchat config; `settings` is `none` when the settings block itself
is absent (undefined). -/
structure IWebchatConfig where
  active : Bool
  settings : Option IWebchatSettings
deriving DecidableEq, Repr

/-- The props of the WebchatUI component.  `unseenMessagesRef` models the
JavaScript reference identity of the `unseenMessages` array, which the
source compares with `!==`. -/
structure WebchatUIProps where
  messages : List IMessage
  unseenMessages : List IMessage
  unseenMessagesRef : Nat
  fullscreenMessage : Option IMessage
  config : IWebchatConfig
  «open» : Bool
  messagePlugins : Option (List MessagePlugin)
  inputPlugins : List InputPlugin
  inputMode : String
  connected : Bool
  reconnectionLimit : Bool
deriving DecidableEq, Repr

/-- Theme tokens; only the primary color is observable in this component. -/
structure IWebchatTheme where
  primaryColor : String
deriving DecidableEq, Repr

/-- Modelled from the spec: `createWebchatTheme` (the external theme token
generation function from ../style, an excluded collaborator) derives theme
tokens from an optional primary color. -/
def createWebchatTheme (primaryColor : Option String) : IWebchatTheme :=
  ⟨primaryColor.getD "webchatDefaultPrimary"⟩

/-- The component state of WebchatUI. -/
structure WebchatUIState where
  theme : IWebchatTheme
  messagePlugins : List MessagePlugin
  inputPlugins : List InputPlugin
  hadConnection : Bool
  lastUnseenMessageText : String
deriving DecidableEq, Repr

/-- The initial `state` field of the class. -/
def initialState : WebchatUIState :=
  { theme := createWebchatTheme none
  , messagePlugins := []
  , inputPlugins := []
  , hadConnection := false
  , lastUnseenMessageText := "" }

/-- The phase of the title-indicator blink (`titleType` instance field). -/
inductive TitleType where
  | original
  | unread
deriving DecidableEq, Repr

/-- A component instance: props, state and the non-state instance fields
`unreadTitleIndicatorInterval`, `originalTitle` and `titleType`. -/
structure Component where
  props : WebchatUIProps
  state : WebchatUIState
  unreadTitleIndicatorInterval : Option Nat
  originalTitle : String
  titleType : TitleType
deriving DecidableEq, Repr

/-- Page-global resources the component touches: the document title, the
interval timers currently registered with the browser, a fresh-id counter
for `setInterval`, and a count of notification-sound plays. -/
structure Env where
  docTitle : String
  liveTimers : List Nat
  nextTimerId : Nat
  soundPlays : Nat
deriving DecidableEq, Repr

/-- JavaScript truthiness of an optional boolean: `undefined` is falsy. -/
def truthy (o : Option Bool) : Bool := o.getD false

/-- JavaScript `a || b` for an optional string: `undefined` and the empty
string are falsy. -/
def jsOr (o : Option String) (d : String) : String :=
  match o with
  | some s => if s != "" then s else d
  | none => d

/-- JavaScript template-literal coercion: `undefined` renders as the string
"undefined". -/
def jsDisplay (o : Option String) : String := o.getD "undefined"

/-- The TypeError raised by reading a property of `undefined`
(`config.settings.<field>` when `settings` is absent). -/
def settingsErrorMsg : String := "TypeError: config.settings is undefined"

/-- `static getDerivedStateFromProps` (lines 124-135): recompute the theme
when a truthy configured color scheme differs from the current primary
color.  The access chain `props.config && props.config.settings &&
props.config.settings.colorScheme` is guarded, so it never throws. -/
def getDerivedStateFromProps (props : WebchatUIProps) (state : WebchatUIState) :
    Option WebchatUIState :=
  let color : Option String := props.config.settings.bind (fun s => s.colorScheme)
  match color with
  | some c =>
      if c != "" && c != state.theme.primaryColor then
        some { state with theme := createWebchatTheme (some c) }
      else
        none
  | none => none

/-- React applies the derived state when `getDerivedStateFromProps` returns a
non-null value, and keeps the previous state otherwise. -/
def applyDerivedState (props : WebchatUIProps) (state : WebchatUIState) :
    WebchatUIState :=
  (getDerivedStateFromProps props state).getD state

/-- `initializeTitleIndicator` (lines 207-212): a no-op when the interval
handle is already set; otherwise registers a fresh recurring timer and
stores its handle. -/
def initializeTitleIndicator (c : Component) (e : Env) : Component × Env :=
  match c.unreadTitleIndicatorInterval with
  | some _ => (c, e)
  | none =>
      ({ c with unreadTitleIndicatorInterval := some e.nextTimerId },
       { e with liveTimers := e.liveTimers ++ [e.nextTimerId]
              , nextTimerId := e.nextTimerId + 1 })

/-- `componentWillUnmount` (lines 193-201): clears the recurring timer when
one is registered and nulls the handle. -/
def componentWillUnmount (c : Component) (e : Env) : Component × Env :=
  match c.unreadTitleIndicatorInterval with
  | some id =>
      ({ c with unreadTitleIndicatorInterval := none },
       { e with liveTimers := e.liveTimers.filter (fun t => t != id) })
  | none => (c, e)

/-- `toggleTitleIndicator` (lines 214-224): in the unread phase, restore the
captured original title; in the original phase, show "(N) <label>" only when
the live unseen count is positive (reading
`config.settings.unreadMessageTitleText` throws when `settings` is
undefined), and otherwise leave title and phase untouched. -/
def toggleTitleIndicator (c : Component) (e : Env) : Except String (Component × Env) :=
  match c.titleType with
  | TitleType.unread =>
      Except.ok ({ c with titleType := TitleType.original },
                 { e with docTitle := c.originalTitle })
  | TitleType.original =>
      if c.props.unseenMessages.length > 0 then
        match c.props.config.settings with
        | none => Except.error settingsErrorMsg
        | some s =>
            Except.ok ({ c with titleType := TitleType.unread },
                       { e with docTitle :=
                           "(" ++ toString c.props.unseenMessages.length ++ ") "
                             ++ jsDisplay s.unreadMessageTitleText })
      else
        Except.ok (c, e)

/-- Lines 138-141: the one-time plugin resolution of `componentDidMount` —
the host input list (`|| []` is the identity on an array) with the built-in
text-input plugin appended, and the optional host message list (`|| []`,
empty when absent) with the built-in regular-message plugin appended. -/
def resolvePlugins (c : Component) : Component :=
  { c with state := { c.state with
      inputPlugins := c.props.inputPlugins ++ [textInputPlugin]
    , messagePlugins := c.props.messagePlugins.getD [] ++ [regularMessagePlugin] } }

/-- `componentDidMount` (lines 137-146): resolve the plugin lists once, then
read `config.settings.enableUnreadMessageTitleIndicator` — which throws when
`settings` is undefined — and start the title indicator when it is truthy. -/
def componentDidMount (c : Component) (e : Env) : Except String (Component × Env) :=
  match c.props.config.settings with
  | none => Except.error settingsErrorMsg
  | some s =>
      if truthy s.enableUnreadMessageTitleIndicator then
        Except.ok (initializeTitleIndicator (resolvePlugins c) e)
      else
        Except.ok (resolvePlugins c, e)

/-- Step 1 of `componentDidUpdate` (lines 149-153): recompute the theme when
the configured color scheme changed. -/
def updateTheme (s prevSettings : IWebchatSettings) (c : Component) : Component :=
  if s.colorScheme ≠ prevSettings.colorScheme then
    { c with state := { c.state with theme := createWebchatTheme s.colorScheme } }
  else c

/-- Step 2 of `componentDidUpdate` (lines 155-159): latch `hadConnection`
when the component is connected and the previous state had no connection
yet. -/
def latchHadConnection (prevState : WebchatUIState) (c : Component) : Component :=
  if !prevState.hadConnection && c.props.connected then
    { c with state := { c.state with hadConnection := true } }
  else c

/-- Lines 166-171: the preview text of an unseen-message list — the textual
content of its last element, or the empty string when it is empty. -/
def lastTextOf (ms : List IMessage) : String :=
  match ms.getLast? with
  | some lastUnseenMessage => getTextFromMessage lastUnseenMessage
  | none => ""

/-- Lines 164-176: recompute the unseen-message preview text when the
feature is enabled. -/
def updateUnseenText (s : IWebchatSettings) (c : Component) : Component :=
  if truthy s.enableUnreadMessagePreview then
    { c with state :=
        { c.state with lastUnseenMessageText := lastTextOf c.props.unseenMessages } }
  else c

/-- Lines 178-181: play the notification sound when the feature is enabled
and the unseen list is non-empty. -/
def playUnseenSound (s : IWebchatSettings) (c : Component) (e : Env) : Env :=
  if c.props.unseenMessages.length > 0 && truthy s.enableUnreadMessageSound then
    { e with soundPlays := e.soundPlays + 1 }
  else e

/-- Step 3 of `componentDidUpdate` (lines 161-182): when the reference
identity of `unseenMessages` changed, recompute the unseen-message preview
text (when that feature is enabled) and play the notification sound (when
that feature is enabled and the list is non-empty). -/
def updateUnseen (prevProps : WebchatUIProps) (s : IWebchatSettings)
    (c : Component) (e : Env) : Component × Env :=
  if prevProps.unseenMessagesRef ≠ c.props.unseenMessagesRef then
    (updateUnseenText s c, playUnseenSound s (updateUnseenText s c) e)
  else (c, e)

/-- Step 4 of `componentDidUpdate` (lines 185-190): start the title
indicator on an off-to-on transition of the feature flag. -/
def maybeStartTitleIndicator (s prevSettings : IWebchatSettings)
    (c : Component) (e : Env) : Component × Env :=
  if truthy s.enableUnreadMessageTitleIndicator
      ∧ s.enableUnreadMessageTitleIndicator ≠ prevSettings.enableUnreadMessageTitleIndicator then
    initializeTitleIndicator c e
  else (c, e)

/-- The pure body of `componentDidUpdate`, run once both the current and the
previous settings block are known to be present. -/
def didUpdateCore (prevProps : WebchatUIProps) (prevState : WebchatUIState)
    (s prevSettings : IWebchatSettings) (c : Component) (e : Env) : Component × Env :=
  let c := updateTheme s prevSettings c
  let c := latchHadConnection prevState c
  let p := updateUnseen prevProps s c e
  maybeStartTitleIndicator s prevSettings p.1 p.2

/-- `componentDidUpdate` (lines 148-191).  Its first statement reads
`this.props.config.settings.colorScheme` and
`prevProps.config.settings.colorScheme`, in that order, so it throws exactly
when either settings block is undefined; every later settings access reads
the same two objects, so a single presence check models the whole method. -/
def componentDidUpdate (prevProps : WebchatUIProps) (prevState : WebchatUIState)
    (c : Component) (e : Env) : Except String (Component × Env) :=
  match c.props.config.settings, prevProps.config.settings with
  | none, _ => Except.error settingsErrorMsg
  | some _, none => Except.error settingsErrorMsg
  | some s, some prevSettings =>
      Except.ok (didUpdateCore prevProps prevState s prevSettings c e)

/-- Constructing the component: initial state, no interval registered, the
current document title captured as `originalTitle`, phase `original`. -/
def newComponent (props : WebchatUIProps) (e : Env) : Component :=
  { props := props
  , state := initialState
  , unreadTitleIndicatorInterval := none
  , originalTitle := e.docTitle
  , titleType := TitleType.original }

/-- Receiving new props: React runs `getDerivedStateFromProps` on the new
props, then `componentDidUpdate` with the previous props and state.  The
`setState` calls inside `componentDidUpdate` trigger a further update pass
whose previous props equal the current props and whose previous state
already carries every change, so that cascade pass changes nothing and is
not modelled separately. -/
def updateStep (c : Component) (e : Env) (newProps : WebchatUIProps) :
    Except String (Component × Env) :=
  componentDidUpdate c.props c.state
    { c with props := newProps, state := applyDerivedState newProps c.state } e

/-- The component right before `componentDidMount`: constructed with the
initial state, on which React has applied `getDerivedStateFromProps`. -/
def mountInit (props : WebchatUIProps) (e : Env) : Component :=
  { newComponent props e with state := applyDerivedState props initialState }

/-- Mounting: construct the component, apply the derived state, run
`componentDidMount`, then run the `componentDidUpdate` pass that the
`setState` inside `componentDidMount` triggers (with unchanged props and the
pre-mount state as previous state). -/
def mountComponent (props : WebchatUIProps) (e : Env) :
    Except String (Component × Env) :=
  match componentDidMount (mountInit props e) e with
  | Except.error msg => Except.error msg
  | Except.ok (c, e2) => componentDidUpdate props (mountInit props e).state c e2

/-- A sequence of prop updates applied in order. -/
def runUpdates : List WebchatUIProps → Component → Env → Except String (Component × Env)
  | [], c, e => Except.ok (c, e)
  | p :: ps, c, e =>
      match updateStep c e p with
      | Except.error msg => Except.error msg
      | Except.ok (c, e) => runUpdates ps c e

/-- An external event during the component's lifetime: a prop update or the
firing of an interval timer. -/
inductive UIEvent where
  | update (p : WebchatUIProps)
  | tick (id : Nat)
deriving DecidableEq, Repr

/-- An interval callback fires only while its timer is registered; a cleared
timer never runs again. -/
def tickTimer (id : Nat) (c : Component) (e : Env) : Except String (Component × Env) :=
  if e.liveTimers.contains id then toggleTitleIndicator c e else Except.ok (c, e)

/-- A sequence of lifetime events applied in order. -/
def runEvents : List UIEvent → Component → Env → Except String (Component × Env)
  | [], c, e => Except.ok (c, e)
  | UIEvent.update p :: evs, c, e =>
      match updateStep c e p with
      | Except.error msg => Except.error msg
      | Except.ok (c, e) => runEvents evs c e
  | UIEvent.tick id :: evs, c, e =>
      match tickTimer id c e with
      | Except.error msg => Except.error msg
      | Except.ok (c, e) => runEvents evs c e

/-- The single-timer invariant: the registered browser timers are exactly
the component's stored interval handle. -/
def timerInv (c : Component) (e : Env) : Prop :=
  match c.unreadTitleIndicatorInterval with
  | none => e.liveTimers = []
  | some id => e.liveTimers = [id]

/-- A node of the rendered output. -/
inductive UINode where
  | header (title : String) (logoUrl : Option String)
  | historyView (messages : List IMessage)
  | inputArea
  | fullScreenMessage (m : IMessage)
  | disconnectOverlay (isPermanent : Bool)
  | messageTeaser (text : String)
  | toggleButton (showClose : Bool) (badge : Option Nat)
deriving DecidableEq, Repr

/-- `renderRegularLayout` (lines 349-370): header (title with the
'Cognigy Webchat' fallback), scrollable history, input area. -/
def regularLayoutNodes (s : IWebchatSettings) (c : Component) : List UINode :=
  [ UINode.header (jsOr s.title "Cognigy Webchat") s.headerLogoUrl
  , UINode.historyView c.props.messages
  , UINode.inputArea ]

/-- Line 280: `showDisconnectOverlay = enableConnectionStatusIndicator &&
!connected && hadConnection`. -/
def showDisconnectOverlayOf (s : IWebchatSettings) (c : Component) : Bool :=
  truthy s.enableConnectionStatusIndicator && !c.props.connected
    && c.state.hadConnection

/-- Lines 289-301: the `open && (<WebchatRoot> ...)` block — the regular or
fullscreen layout, then the disconnect overlay when its flag holds; nothing
when the widget is closed. -/
def panelNodes (s : IWebchatSettings) (c : Component) : List UINode :=
  if c.props.«open» then
    (match c.props.fullscreenMessage with
     | none => regularLayoutNodes s c
     | some m => [UINode.fullScreenMessage m])
      ++ (if showDisconnectOverlayOf s c then
            [UINode.disconnectOverlay c.props.reconnectionLimit]
          else [])
  else []

/-- Lines 302-340: the `!disableToggleButton && (...)` block — the teaser
whenever the preview text is non-empty (truthy), then the floating toggle
button with its optional unseen-count badge. -/
def toggleNodes (s : IWebchatSettings) (c : Component) : List UINode :=
  if truthy s.disableToggleButton then []
  else
    (if c.state.lastUnseenMessageText != "" then
        [UINode.messageTeaser c.state.lastUnseenMessageText]
      else [])
      ++ [UINode.toggleButton c.props.«open»
            (if truthy s.enableUnreadMessageBadge then
                some c.props.unseenMessages.length
              else none)]

/-- The pure body of `render` (lines 252-347), run once the settings block is
known to be present: bail out with null when the config is inactive (line
277), otherwise the panel block followed by the toggle block. -/
def renderCore (s : IWebchatSettings) (c : Component) : Option (List UINode) :=
  if !c.props.config.active then none
  else some (panelNodes s c ++ toggleNodes s c)

/-- `render` (lines 252-347).  Line 275 destructures `config.settings`
before the `config.active` check on line 277, so rendering throws when the
settings block is undefined, even for an inactive config. -/
def render (c : Component) : Except String (Option (List UINode)) :=
  match c.props.config.settings with
  | none => Except.error settingsErrorMsg
  | some s => Except.ok (renderCore s c)

/-- Whether a node is the disconnect overlay. -/
def UINode.isOverlay : UINode → Bool
  | UINode.disconnectOverlay _ => true
  | _ => false

/-- Whether a node is the message teaser. -/
def UINode.isTeaser : UINode → Bool
  | UINode.messageTeaser _ => true
  | _ => false

/-- Whether a node is the header. -/
def UINode.isHeader : UINode → Bool
  | UINode.header _ _ => true
  | _ => false

/-- Whether a node is the history view. -/
def UINode.isHistory : UINode → Bool
  | UINode.historyView _ => true
  | _ => false

/-- Whether a node is the input area. -/
def UINode.isInput : UINode → Bool
  | UINode.inputArea => true
  | _ => false

/-- Whether a node is the fullscreen message view. -/
def UINode.isFullscreen : UINode → Bool
  | UINode.fullScreenMessage _ => true
  | _ => false

/-- Whether a render result contains a node satisfying `p` (false when the
render returned null or threw). -/
def hasNode (p : UINode → Bool) : Except String (Option (List UINode)) → Bool
  | Except.ok (some ns) => ns.any p
  | _ => false

/-- Whether a computation in the Except monad succeeded. -/
def exceptOk {α : Type} : Except String α → Bool
  | Except.ok _ => true
  | Except.error _ => false

/-- The unread-preview feature flag of a props object, with JavaScript
truthiness (absent settings block or absent flag are falsy). -/
def previewFlag (p : WebchatUIProps) : Bool :=
  truthy (p.config.settings.bind (fun s => s.enableUnreadMessagePreview))

/- ### Field lemmas for the update steps -/

theorem applyDerivedState_state (p : WebchatUIProps) (st : WebchatUIState) :
    (applyDerivedState p st).messagePlugins = st.messagePlugins ∧
    (applyDerivedState p st).inputPlugins = st.inputPlugins ∧
    (applyDerivedState p st).hadConnection = st.hadConnection ∧
    (applyDerivedState p st).lastUnseenMessageText = st.lastUnseenMessageText := by
  unfold applyDerivedState getDerivedStateFromProps
  cases p.config.settings.bind (fun s => s.colorScheme) with
  | none => exact ⟨rfl, rfl, rfl, rfl⟩
  | some c =>
      simp only
      split
      · exact ⟨rfl, rfl, rfl, rfl⟩
      · exact ⟨rfl, rfl, rfl, rfl⟩

theorem updateTheme_fields (s ps : IWebchatSettings) (c : Component) :
    (updateTheme s ps c).props = c.props ∧
    (updateTheme s ps c).state.messagePlugins = c.state.messagePlugins ∧
    (updateTheme s ps c).state.inputPlugins = c.state.inputPlugins ∧
    (updateTheme s ps c).state.hadConnection = c.state.hadConnection ∧
    (updateTheme s ps c).state.lastUnseenMessageText = c.state.lastUnseenMessageText ∧
    (updateTheme s ps c).unreadTitleIndicatorInterval = c.unreadTitleIndicatorInterval := by
  unfold updateTheme
  split
  · exact ⟨rfl, rfl, rfl, rfl, rfl, rfl⟩
  · exact ⟨rfl, rfl, rfl, rfl, rfl, rfl⟩

theorem latchHadConnection_fields (ps : WebchatUIState) (c : Component) :
    (latchHadConnection ps c).props = c.props ∧
    (latchHadConnection ps c).state.messagePlugins = c.state.messagePlugins ∧
    (latchHadConnection ps c).state.inputPlugins = c.state.inputPlugins ∧
    (latchHadConnection ps c).state.lastUnseenMessageText = c.state.lastUnseenMessageText ∧
    (latchHadConnection ps c).unreadTitleIndicatorInterval = c.unreadTitleIndicatorInterval := by
  unfold latchHadConnection
  split
  · exact ⟨rfl, rfl, rfl, rfl, rfl⟩
  · exact ⟨rfl, rfl, rfl, rfl, rfl⟩

theorem latchHadConnection_hadConnection (ps : WebchatUIState) (c : Component) :
    (latchHadConnection ps c).state.hadConnection =
      (c.state.hadConnection || (!ps.hadConnection && c.props.connected)) := by
  unfold latchHadConnection
  split
  · rename_i h
    simp only [h, Bool.or_true]
  · rename_i h
    rw [Bool.not_eq_true] at h
    simp only [h, Bool.or_false]

theorem updateUnseen_fields (pp : WebchatUIProps) (s : IWebchatSettings)
    (c : Component) (e : Env) :
    (updateUnseen pp s c e).1.props = c.props ∧
    (updateUnseen pp s c e).1.state.messagePlugins = c.state.messagePlugins ∧
    (updateUnseen pp s c e).1.state.inputPlugins = c.state.inputPlugins ∧
    (updateUnseen pp s c e).1.state.hadConnection = c.state.hadConnection ∧
    (updateUnseen pp s c e).1.unreadTitleIndicatorInterval = c.unreadTitleIndicatorInterval ∧
    (updateUnseen pp s c e).2.liveTimers = e.liveTimers ∧
    (updateUnseen pp s c e).2.docTitle = e.docTitle ∧
    (updateUnseen pp s c e).2.nextTimerId = e.nextTimerId := by
  unfold updateUnseen updateUnseenText playUnseenSound
  split
  · split <;> split <;> exact ⟨rfl, rfl, rfl, rfl, rfl, rfl, rfl, rfl⟩
  · exact ⟨rfl, rfl, rfl, rfl, rfl, rfl, rfl, rfl⟩

theorem updateUnseen_lastText_off (pp : WebchatUIProps) (s : IWebchatSettings)
    (c : Component) (e : Env)
    (h : truthy s.enableUnreadMessagePreview = false) :
    (updateUnseen pp s c e).1.state.lastUnseenMessageText =
      c.state.lastUnseenMessageText := by
  unfold updateUnseen updateUnseenText
  split
  · simp only [h, Bool.false_eq_true, if_false]
  · rfl

theorem updateUnseen_lastText_refEq (pp : WebchatUIProps) (s : IWebchatSettings)
    (c : Component) (e : Env)
    (h : pp.unseenMessagesRef = c.props.unseenMessagesRef) :
    (updateUnseen pp s c e).1.state.lastUnseenMessageText =
      c.state.lastUnseenMessageText := by
  unfold updateUnseen
  rw [if_neg (not_not_intro h)]

theorem updateUnseen_lastText_on (pp : WebchatUIProps) (s : IWebchatSettings)
    (c : Component) (e : Env)
    (href : pp.unseenMessagesRef ≠ c.props.unseenMessagesRef)
    (hon : truthy s.enableUnreadMessagePreview = true) :
    (updateUnseen pp s c e).1.state.lastUnseenMessageText =
      lastTextOf c.props.unseenMessages := by
  unfold updateUnseen updateUnseenText
  rw [if_pos href]
  simp only [hon, if_true]

theorem initializeTitleIndicator_fields (c : Component) (e : Env) :
    (initializeTitleIndicator c e).1.props = c.props ∧
    (initializeTitleIndicator c e).1.state = c.state ∧
    (initializeTitleIndicator c e).1.originalTitle = c.originalTitle ∧
    (initializeTitleIndicator c e).1.titleType = c.titleType ∧
    (initializeTitleIndicator c e).2.docTitle = e.docTitle ∧
    (initializeTitleIndicator c e).2.soundPlays = e.soundPlays := by
  unfold initializeTitleIndicator
  cases c.unreadTitleIndicatorInterval <;> exact ⟨rfl, rfl, rfl, rfl, rfl, rfl⟩

theorem initializeTitleIndicator_timerInv (c : Component) (e : Env)
    (h : timerInv c e) :
    timerInv (initializeTitleIndicator c e).1 (initializeTitleIndicator c e).2 := by
  unfold timerInv at h ⊢
  unfold initializeTitleIndicator
  cases hc : c.unreadTitleIndicatorInterval with
  | none =>
      rw [hc] at h
      simp only [hc, h, List.nil_append]
  | some id =>
      rw [hc] at h
      simp only [hc, h]

theorem initializeTitleIndicator_idem (c : Component) (e : Env) :
    initializeTitleIndicator (initializeTitleIndicator c e).1
        (initializeTitleIndicator c e).2 =
      initializeTitleIndicator c e := by
  unfold initializeTitleIndicator
  cases hc : c.unreadTitleIndicatorInterval <;> simp [hc]

theorem maybeStartTitleIndicator_fields (s ps : IWebchatSettings)
    (c : Component) (e : Env) :
    (maybeStartTitleIndicator s ps c e).1.props = c.props ∧
    (maybeStartTitleIndicator s ps c e).1.state = c.state ∧
    (maybeStartTitleIndicator s ps c e).2.docTitle = e.docTitle ∧
    (maybeStartTitleIndicator s ps c e).2.soundPlays = e.soundPlays := by
  unfold maybeStartTitleIndicator
  split
  · have h := initializeTitleIndicator_fields c e
    exact ⟨h.1, h.2.1, h.2.2.2.2.1, h.2.2.2.2.2⟩
  · exact ⟨rfl, rfl, rfl, rfl⟩

theorem maybeStartTitleIndicator_timerInv (s ps : IWebchatSettings)
    (c : Component) (e : Env) (h : timerInv c e) :
    timerInv (maybeStartTitleIndicator s ps c e).1
      (maybeStartTitleIndicator s ps c e).2 := by
  unfold maybeStartTitleIndicator
  split
  · exact initializeTitleIndicator_timerInv c e h
  · exact h

/- ### didUpdateCore composition lemmas -/

theorem didUpdateCore_hadConnection (pp : WebchatUIProps) (ps : WebchatUIState)
    (s prevS : IWebchatSettings) (c : Component) (e : Env) :
    (didUpdateCore pp ps s prevS c e).1.state.hadConnection =
      (c.state.hadConnection || (!ps.hadConnection && c.props.connected)) := by
  unfold didUpdateCore
  rw [(maybeStartTitleIndicator_fields s prevS _ _).2.1,
      (updateUnseen_fields pp s _ _).2.2.2.1,
      latchHadConnection_hadConnection,
      (updateTheme_fields s prevS c).2.2.2.1,
      (updateTheme_fields s prevS c).1]

theorem didUpdateCore_plugins (pp : WebchatUIProps) (ps : WebchatUIState)
    (s prevS : IWebchatSettings) (c : Component) (e : Env) :
    (didUpdateCore pp ps s prevS c e).1.state.messagePlugins =
        c.state.messagePlugins ∧
      (didUpdateCore pp ps s prevS c e).1.state.inputPlugins =
        c.state.inputPlugins := by
  unfold didUpdateCore
  constructor
  · rw [(maybeStartTitleIndicator_fields s prevS _ _).2.1,
        (updateUnseen_fields pp s _ _).2.1,
        (latchHadConnection_fields ps _).2.1,
        (updateTheme_fields s prevS c).2.1]
  · rw [(maybeStartTitleIndicator_fields s prevS _ _).2.1,
        (updateUnseen_fields pp s _ _).2.2.1,
        (latchHadConnection_fields ps _).2.2.1,
        (updateTheme_fields s prevS c).2.2.1]

theorem didUpdateCore_props (pp : WebchatUIProps) (ps : WebchatUIState)
    (s prevS : IWebchatSettings) (c : Component) (e : Env) :
    (didUpdateCore pp ps s prevS c e).1.props = c.props := by
  unfold didUpdateCore
  rw [(maybeStartTitleIndicator_fields s prevS _ _).1,
      (updateUnseen_fields pp s _ _).1,
      (latchHadConnection_fields ps _).1,
      (updateTheme_fields s prevS c).1]

theorem didUpdateCore_lastText_off (pp : WebchatUIProps) (ps : WebchatUIState)
    (s prevS : IWebchatSettings) (c : Component) (e : Env)
    (hoff : truthy s.enableUnreadMessagePreview = false) :
    (didUpdateCore pp ps s prevS c e).1.state.lastUnseenMessageText =
      c.state.lastUnseenMessageText := by
  unfold didUpdateCore
  rw [(maybeStartTitleIndicator_fields s prevS _ _).2.1,
      updateUnseen_lastText_off _ _ _ _ hoff,
      (latchHadConnection_fields ps _).2.2.2.1,
      (updateTheme_fields s prevS c).2.2.2.2.1]

theorem didUpdateCore_lastText_refEq (pp : WebchatUIProps) (ps : WebchatUIState)
    (s prevS : IWebchatSettings) (c : Component) (e : Env)
    (href : pp.unseenMessagesRef = c.props.unseenMessagesRef) :
    (didUpdateCore pp ps s prevS c e).1.state.lastUnseenMessageText =
      c.state.lastUnseenMessageText := by
  unfold didUpdateCore
  rw [(maybeStartTitleIndicator_fields s prevS _ _).2.1,
      updateUnseen_lastText_refEq _ _ _ _ (by
        rw [(latchHadConnection_fields ps _).1, (updateTheme_fields s prevS c).1]
        exact href),
      (latchHadConnection_fields ps _).2.2.2.1,
      (updateTheme_fields s prevS c).2.2.2.2.1]

theorem didUpdateCore_lastText_on (pp : WebchatUIProps) (ps : WebchatUIState)
    (s prevS : IWebchatSettings) (c : Component) (e : Env)
    (href : pp.unseenMessagesRef ≠ c.props.unseenMessagesRef)
    (hon : truthy s.enableUnreadMessagePreview = true) :
    (didUpdateCore pp ps s prevS c e).1.state.lastUnseenMessageText =
      lastTextOf c.props.unseenMessages := by
  unfold didUpdateCore
  rw [(maybeStartTitleIndicator_fields s prevS _ _).2.1,
      updateUnseen_lastText_on _ _ _ _ (by
        rw [(latchHadConnection_fields ps _).1, (updateTheme_fields s prevS c).1]
        exact href) hon,
      (latchHadConnection_fields ps _).1, (updateTheme_fields s prevS c).1]

theorem didUpdateCore_timerInv (pp : WebchatUIProps) (ps : WebchatUIState)
    (s prevS : IWebchatSettings) (c : Component) (e : Env) (h : timerInv c e) :
    timerInv (didUpdateCore pp ps s prevS c e).1
      (didUpdateCore pp ps s prevS c e).2 := by
  unfold didUpdateCore
  apply maybeStartTitleIndicator_timerInv
  unfold timerInv at h ⊢
  rw [(updateUnseen_fields pp s _ _).2.2.2.2.1,
      (latchHadConnection_fields ps _).2.2.2.2,
      (updateTheme_fields s prevS c).2.2.2.2.2,
      (updateUnseen_fields pp s _ _).2.2.2.2.2.1]
  exact h

/- ### updateStep, mount and run lemmas -/

theorem updateStep_ok (c : Component) (e : Env) (p : WebchatUIProps)
    (c' : Component) (e' : Env) (h : updateStep c e p = Except.ok (c', e')) :
    ∃ s prevS, p.config.settings = some s ∧ c.props.config.settings = some prevS ∧
      (c', e') = didUpdateCore c.props c.state s prevS
          { c with props := p, state := applyDerivedState p c.state } e := by
  unfold updateStep componentDidUpdate at h
  split at h
  · exact absurd h (by simp)
  · exact absurd h (by simp)
  · rename_i s prevS hs hps
    refine ⟨s, prevS, hs, hps, ?_⟩
    injection h with h
    exact h.symm

theorem updateStep_hadConnection (c : Component) (e : Env) (p : WebchatUIProps)
    (c' : Component) (e' : Env) (h : updateStep c e p = Except.ok (c', e')) :
    c'.state.hadConnection = (c.state.hadConnection || p.connected) := by
  obtain ⟨s, prevS, _, _, hcore⟩ := updateStep_ok c e p c' e' h
  have h1 : c' = (didUpdateCore c.props c.state s prevS
      { c with props := p, state := applyDerivedState p c.state } e).1 :=
    congrArg Prod.fst hcore
  rw [h1, didUpdateCore_hadConnection]
  show ((applyDerivedState p c.state).hadConnection
      || (!c.state.hadConnection && p.connected)) = _
  rw [(applyDerivedState_state p c.state).2.2.1]
  cases c.state.hadConnection <;> cases p.connected <;> rfl

theorem updateStep_plugins (c : Component) (e : Env) (p : WebchatUIProps)
    (c' : Component) (e' : Env) (h : updateStep c e p = Except.ok (c', e')) :
    c'.state.messagePlugins = c.state.messagePlugins ∧
      c'.state.inputPlugins = c.state.inputPlugins := by
  obtain ⟨s, prevS, _, _, hcore⟩ := updateStep_ok c e p c' e' h
  have h1 : c' = (didUpdateCore c.props c.state s prevS
      { c with props := p, state := applyDerivedState p c.state } e).1 :=
    congrArg Prod.fst hcore
  rw [h1]
  constructor
  · rw [(didUpdateCore_plugins _ _ s prevS _ e).1]
    exact (applyDerivedState_state p c.state).1
  · rw [(didUpdateCore_plugins _ _ s prevS _ e).2]
    exact (applyDerivedState_state p c.state).2.1

theorem updateStep_props (c : Component) (e : Env) (p : WebchatUIProps)
    (c' : Component) (e' : Env) (h : updateStep c e p = Except.ok (c', e')) :
    c'.props = p := by
  obtain ⟨s, prevS, _, _, hcore⟩ := updateStep_ok c e p c' e' h
  have h1 : c' = (didUpdateCore c.props c.state s prevS
      { c with props := p, state := applyDerivedState p c.state } e).1 :=
    congrArg Prod.fst hcore
  rw [h1, didUpdateCore_props]

theorem updateStep_lastText_off (c : Component) (e : Env) (p : WebchatUIProps)
    (c' : Component) (e' : Env) (h : updateStep c e p = Except.ok (c', e'))
    (hoff : previewFlag p = false) :
    c'.state.lastUnseenMessageText = c.state.lastUnseenMessageText := by
  obtain ⟨s, prevS, hs, _, hcore⟩ := updateStep_ok c e p c' e' h
  have h1 : c' = (didUpdateCore c.props c.state s prevS
      { c with props := p, state := applyDerivedState p c.state } e).1 :=
    congrArg Prod.fst hcore
  have hflag : truthy s.enableUnreadMessagePreview = false := by
    unfold previewFlag at hoff
    rw [hs] at hoff
    exact hoff
  rw [h1, didUpdateCore_lastText_off _ _ _ _ _ _ hflag]
  exact (applyDerivedState_state p c.state).2.2.2

theorem updateStep_lastText_on (c : Component) (e : Env) (p : WebchatUIProps)
    (c' : Component) (e' : Env) (s : IWebchatSettings)
    (h : updateStep c e p = Except.ok (c', e'))
    (hs : p.config.settings = some s)
    (hon : truthy s.enableUnreadMessagePreview = true)
    (href : c.props.unseenMessagesRef ≠ p.unseenMessagesRef) :
    c'.state.lastUnseenMessageText = lastTextOf p.unseenMessages := by
  obtain ⟨s2, prevS, hs2, _, hcore⟩ := updateStep_ok c e p c' e' h
  have hss : s2 = s := by
    rw [hs] at hs2
    exact (Option.some.inj hs2).symm
  subst hss
  have h1 : c' = (didUpdateCore c.props c.state s2 prevS
      { c with props := p, state := applyDerivedState p c.state } e).1 :=
    congrArg Prod.fst hcore
  rw [h1, didUpdateCore_lastText_on _ _ _ _ _ _ href hon]

theorem updateStep_timerInv (c : Component) (e : Env) (p : WebchatUIProps)
    (c' : Component) (e' : Env) (h : updateStep c e p = Except.ok (c', e'))
    (hinv : timerInv c e) : timerInv c' e' := by
  obtain ⟨s, prevS, _, _, hcore⟩ := updateStep_ok c e p c' e' h
  have h1 : c' = (didUpdateCore c.props c.state s prevS
      { c with props := p, state := applyDerivedState p c.state } e).1 :=
    congrArg Prod.fst hcore
  have h2 : e' = (didUpdateCore c.props c.state s prevS
      { c with props := p, state := applyDerivedState p c.state } e).2 :=
    congrArg Prod.snd hcore
  rw [h1, h2]
  exact didUpdateCore_timerInv _ _ s prevS _ e hinv

theorem mountInit_props (p : WebchatUIProps) (e : Env) :
    (mountInit p e).props = p := rfl

theorem componentDidUpdate_ok (pp : WebchatUIProps) (ps : WebchatUIState)
    (c : Component) (e : Env) (c' : Component) (e' : Env)
    (h : componentDidUpdate pp ps c e = Except.ok (c', e')) :
    ∃ s prevS, c.props.config.settings = some s ∧ pp.config.settings = some prevS ∧
      (c', e') = didUpdateCore pp ps s prevS c e := by
  unfold componentDidUpdate at h
  split at h
  · exact absurd h (by simp)
  · exact absurd h (by simp)
  · rename_i s prevS hs hps
    refine ⟨s, prevS, hs, hps, ?_⟩
    injection h with h
    exact h.symm

theorem resolvePlugins_fields (c : Component) :
    (resolvePlugins c).props = c.props ∧
    (resolvePlugins c).state.hadConnection = c.state.hadConnection ∧
    (resolvePlugins c).state.lastUnseenMessageText = c.state.lastUnseenMessageText ∧
    (resolvePlugins c).unreadTitleIndicatorInterval = c.unreadTitleIndicatorInterval ∧
    (resolvePlugins c).state.messagePlugins
        = c.props.messagePlugins.getD [] ++ [regularMessagePlugin] ∧
    (resolvePlugins c).state.inputPlugins = c.props.inputPlugins ++ [textInputPlugin] :=
  ⟨rfl, rfl, rfl, rfl, rfl, rfl⟩

theorem componentDidMount_ok (c : Component) (e : Env) (c' : Component) (e' : Env)
    (h : componentDidMount c e = Except.ok (c', e')) :
    c'.props = c.props ∧
    c'.state.hadConnection = c.state.hadConnection ∧
    c'.state.lastUnseenMessageText = c.state.lastUnseenMessageText ∧
    c'.state.messagePlugins = c.props.messagePlugins.getD [] ++ [regularMessagePlugin] ∧
    c'.state.inputPlugins = c.props.inputPlugins ++ [textInputPlugin] := by
  unfold componentDidMount at h
  split at h
  · exact absurd h (by simp)
  · split at h
    · injection h with h
      have h1 : c' = (initializeTitleIndicator (resolvePlugins c) e).1 :=
        (congrArg Prod.fst h).symm
      have hf := initializeTitleIndicator_fields (resolvePlugins c) e
      rw [h1, hf.1, hf.2.1]
      exact ⟨rfl, rfl, rfl, rfl, rfl⟩
    · injection h with h
      have h1 : c' = resolvePlugins c := (congrArg Prod.fst h).symm
      rw [h1]
      exact ⟨rfl, rfl, rfl, rfl, rfl⟩

theorem componentDidMount_timerInv (c : Component) (e : Env) (c' : Component)
    (e' : Env) (h : componentDidMount c e = Except.ok (c', e'))
    (hinv : timerInv c e) : timerInv c' e' := by
  unfold componentDidMount at h
  split at h
  · exact absurd h (by simp)
  · split at h
    · injection h with h
      have h1 : c' = (initializeTitleIndicator (resolvePlugins c) e).1 :=
        (congrArg Prod.fst h).symm
      have h2 : e' = (initializeTitleIndicator (resolvePlugins c) e).2 :=
        (congrArg Prod.snd h).symm
      rw [h1, h2]
      exact initializeTitleIndicator_timerInv (resolvePlugins c) e hinv
    · injection h with h
      have h1 : c' = resolvePlugins c := (congrArg Prod.fst h).symm
      have h2 : e' = e := (congrArg Prod.snd h).symm
      rw [h1, h2]
      exact hinv

theorem mountComponent_hadConnection (p : WebchatUIProps) (e : Env)
    (c' : Component) (e' : Env) (h : mountComponent p e = Except.ok (c', e')) :
    c'.state.hadConnection = p.connected := by
  unfold mountComponent at h
  split at h
  · exact absurd h (by simp)
  · rename_i c1 e1 heq
    obtain ⟨s, prevS, _, _, hcore⟩ := componentDidUpdate_ok p _ c1 e1 c' e' h
    have h1 : c' = (didUpdateCore p (mountInit p e).state s prevS c1 e1).1 :=
      congrArg Prod.fst hcore
    have hm := componentDidMount_ok _ e c1 e1 heq
    rw [h1, didUpdateCore_hadConnection, hm.2.1, hm.1]
    show ((applyDerivedState p initialState).hadConnection
        || (!(applyDerivedState p initialState).hadConnection && _)) = _
    rw [(applyDerivedState_state p initialState).2.2.1]
    show (false || (!false && p.connected)) = p.connected
    cases p.connected <;> rfl

theorem mountComponent_plugins (p : WebchatUIProps) (e : Env)
    (c' : Component) (e' : Env) (h : mountComponent p e = Except.ok (c', e')) :
    c'.state.messagePlugins = p.messagePlugins.getD [] ++ [regularMessagePlugin] ∧
      c'.state.inputPlugins = p.inputPlugins ++ [textInputPlugin] := by
  unfold mountComponent at h
  split at h
  · exact absurd h (by simp)
  · rename_i c1 e1 heq
    obtain ⟨s, prevS, _, _, hcore⟩ := componentDidUpdate_ok p _ c1 e1 c' e' h
    have h1 : c' = (didUpdateCore p (mountInit p e).state s prevS c1 e1).1 :=
      congrArg Prod.fst hcore
    have hm := componentDidMount_ok _ e c1 e1 heq
    constructor
    · rw [h1, (didUpdateCore_plugins p _ s prevS c1 e1).1, hm.2.2.2.1,
          mountInit_props]
    · rw [h1, (didUpdateCore_plugins p _ s prevS c1 e1).2, hm.2.2.2.2,
          mountInit_props]

theorem mountComponent_lastText (p : WebchatUIProps) (e : Env)
    (c' : Component) (e' : Env) (h : mountComponent p e = Except.ok (c', e')) :
    c'.state.lastUnseenMessageText = "" := by
  unfold mountComponent at h
  split at h
  · exact absurd h (by simp)
  · rename_i c1 e1 heq
    obtain ⟨s, prevS, _, _, hcore⟩ := componentDidUpdate_ok p _ c1 e1 c' e' h
    have h1 : c' = (didUpdateCore p (mountInit p e).state s prevS c1 e1).1 :=
      congrArg Prod.fst hcore
    have hm := componentDidMount_ok _ e c1 e1 heq
    rw [h1, didUpdateCore_lastText_refEq p _ s prevS c1 e1
          (by rw [hm.1, mountInit_props]),
        hm.2.2.1]
    exact (applyDerivedState_state p initialState).2.2.2

theorem mountComponent_timerInv (p : WebchatUIProps) (e : Env)
    (c' : Component) (e' : Env) (h : mountComponent p e = Except.ok (c', e'))
    (he : e.liveTimers = []) : timerInv c' e' := by
  unfold mountComponent at h
  split at h
  · exact absurd h (by simp)
  · rename_i c1 e1 heq
    obtain ⟨s, prevS, _, _, hcore⟩ := componentDidUpdate_ok p _ c1 e1 c' e' h
    have h1 : c' = (didUpdateCore p (mountInit p e).state s prevS c1 e1).1 :=
      congrArg Prod.fst hcore
    have h2 : e' = (didUpdateCore p (mountInit p e).state s prevS c1 e1).2 :=
      congrArg Prod.snd hcore
    rw [h1, h2]
    apply didUpdateCore_timerInv
    apply componentDidMount_timerInv _ e c1 e1 heq
    unfold timerInv mountInit newComponent
    exact he

theorem runUpdates_hadConnection (ps : List WebchatUIProps) :
    ∀ (c : Component) (e : Env) (c' : Component) (e' : Env),
      runUpdates ps c e = Except.ok (c', e') →
      c'.state.hadConnection =
        (c.state.hadConnection || ps.any fun p => p.connected) := by
  induction ps with
  | nil =>
      intro c e c' e' h
      unfold runUpdates at h
      injection h with h
      have h1 : c' = c := (congrArg Prod.fst h).symm
      rw [h1]
      simp
  | cons p ps ih =>
      intro c e c' e' h
      unfold runUpdates at h
      split at h
      · exact absurd h (by simp)
      · rename_i c1 e1 heq
        rw [ih c1 e1 c' e' h, updateStep_hadConnection c e p c1 e1 heq,
            List.any_cons, Bool.or_assoc]

theorem runUpdates_plugins (ps : List WebchatUIProps) :
    ∀ (c : Component) (e : Env) (c' : Component) (e' : Env),
      runUpdates ps c e = Except.ok (c', e') →
      c'.state.messagePlugins = c.state.messagePlugins ∧
        c'.state.inputPlugins = c.state.inputPlugins := by
  induction ps with
  | nil =>
      intro c e c' e' h
      unfold runUpdates at h
      injection h with h
      have h1 : c' = c := (congrArg Prod.fst h).symm
      rw [h1]
      exact ⟨rfl, rfl⟩
  | cons p ps ih =>
      intro c e c' e' h
      unfold runUpdates at h
      split at h
      · exact absurd h (by simp)
      · rename_i c1 e1 heq
        have h2 := updateStep_plugins c e p c1 e1 heq
        have h3 := ih c1 e1 c' e' h
        exact ⟨h3.1.trans h2.1, h3.2.trans h2.2⟩

theorem runUpdates_lastText_off (ps : List WebchatUIProps) :
    ∀ (c : Component) (e : Env) (c' : Component) (e' : Env),
      runUpdates ps c e = Except.ok (c', e') →
      (∀ p ∈ ps, previewFlag p = false) →
      c'.state.lastUnseenMessageText = c.state.lastUnseenMessageText := by
  induction ps with
  | nil =>
      intro c e c' e' h _
      unfold runUpdates at h
      injection h with h
      have h1 : c' = c := (congrArg Prod.fst h).symm
      rw [h1]
  | cons p ps ih =>
      intro c e c' e' h hall
      unfold runUpdates at h
      split at h
      · exact absurd h (by simp)
      · rename_i c1 e1 heq
        have h2 := updateStep_lastText_off c e p c1 e1 heq
          (hall p (List.mem_cons_self p ps))
        have h3 := ih c1 e1 c' e' h (fun q hq => hall q (List.mem_cons_of_mem p hq))
        exact h3.trans h2

/- ### Timer ticks, teardown and the toggle -/

theorem toggleTitleIndicator_preserves (c : Component) (e : Env)
    (c' : Component) (e' : Env)
    (h : toggleTitleIndicator c e = Except.ok (c', e')) :
    c'.unreadTitleIndicatorInterval = c.unreadTitleIndicatorInterval ∧
      e'.liveTimers = e.liveTimers ∧ c'.props = c.props ∧
      c'.state = c.state ∧ c'.originalTitle = c.originalTitle := by
  unfold toggleTitleIndicator at h
  split at h
  · injection h with h
    have h1 : c' = { c with titleType := TitleType.original } :=
      (congrArg Prod.fst h).symm
    have h2 : e' = { e with docTitle := c.originalTitle } :=
      (congrArg Prod.snd h).symm
    rw [h1, h2]
    exact ⟨rfl, rfl, rfl, rfl, rfl⟩
  · split at h
    · split at h
      · exact absurd h (by simp)
      · injection h with h
        rename_i s _
        have h1 : c' = { c with titleType := TitleType.unread } :=
          (congrArg Prod.fst h).symm
        have h2 : e' = { e with docTitle := "(" ++ toString c.props.unseenMessages.length ++ ") " ++ jsDisplay s.unreadMessageTitleText } :=
          (congrArg Prod.snd h).symm
        rw [h1, h2]
        exact ⟨rfl, rfl, rfl, rfl, rfl⟩
    · injection h with h
      have h1 : c' = c := (congrArg Prod.fst h).symm
      have h2 : e' = e := (congrArg Prod.snd h).symm
      rw [h1, h2]
      exact ⟨rfl, rfl, rfl, rfl, rfl⟩

theorem tickTimer_preserves (id : Nat) (c : Component) (e : Env)
    (c' : Component) (e' : Env) (h : tickTimer id c e = Except.ok (c', e')) :
    c'.unreadTitleIndicatorInterval = c.unreadTitleIndicatorInterval ∧
      e'.liveTimers = e.liveTimers ∧ c'.state = c.state := by
  unfold tickTimer at h
  split at h
  · have h2 := toggleTitleIndicator_preserves c e c' e' h
    exact ⟨h2.1, h2.2.1, h2.2.2.2.1⟩
  · injection h with h
    have h1 : c' = c := (congrArg Prod.fst h).symm
    have h2 : e' = e := (congrArg Prod.snd h).symm
    rw [h1, h2]
    exact ⟨rfl, rfl, rfl⟩

theorem tickTimer_timerInv (id : Nat) (c : Component) (e : Env)
    (c' : Component) (e' : Env) (h : tickTimer id c e = Except.ok (c', e'))
    (hinv : timerInv c e) : timerInv c' e' := by
  have h2 := tickTimer_preserves id c e c' e' h
  unfold timerInv at hinv ⊢
  rw [h2.1, h2.2.1]
  exact hinv

theorem runEvents_timerInv (evs : List UIEvent) :
    ∀ (c : Component) (e : Env) (c' : Component) (e' : Env),
      runEvents evs c e = Except.ok (c', e') → timerInv c e → timerInv c' e' := by
  induction evs with
  | nil =>
      intro c e c' e' h hinv
      unfold runEvents at h
      injection h with h
      have h1 : c' = c := (congrArg Prod.fst h).symm
      have h2 : e' = e := (congrArg Prod.snd h).symm
      rw [h1, h2]
      exact hinv
  | cons ev evs ih =>
      intro c e c' e' h hinv
      cases ev with
      | update p =>
          unfold runEvents at h
          split at h
          · exact absurd h (by simp)
          · rename_i c1 e1 heq
            exact ih c1 e1 c' e' h (updateStep_timerInv c e p c1 e1 heq hinv)
      | tick id =>
          unfold runEvents at h
          split at h
          · exact absurd h (by simp)
          · rename_i c1 e1 heq
            exact ih c1 e1 c' e' h (tickTimer_timerInv id c e c1 e1 heq hinv)

theorem timerInv_length (c : Component) (e : Env) (h : timerInv c e) :
    e.liveTimers.length ≤ 1 := by
  unfold timerInv at h
  cases hc : c.unreadTitleIndicatorInterval with
  | none =>
      rw [hc] at h
      rw [h]
      exact Nat.zero_le 1
  | some id =>
      rw [hc] at h
      rw [h]
      exact Nat.le_refl 1

theorem componentWillUnmount_clears (c : Component) (e : Env) (h : timerInv c e) :
    (componentWillUnmount c e).1.unreadTitleIndicatorInterval = none ∧
      (componentWillUnmount c e).2.liveTimers = [] := by
  unfold componentWillUnmount
  unfold timerInv at h
  cases hc : c.unreadTitleIndicatorInterval with
  | none =>
      rw [hc] at h
      simp [hc, h]
  | some id =>
      rw [hc] at h
      simp [hc, h, List.filter]

theorem runTicks_frozen (ids : List Nat) :
    ∀ (c : Component) (e : Env), e.liveTimers = [] →
      runEvents (ids.map UIEvent.tick) c e = Except.ok (c, e) := by
  induction ids with
  | nil =>
      intro c e _
      rfl
  | cons id ids ih =>
      intro c e he
      show runEvents (UIEvent.tick id :: ids.map UIEvent.tick) c e = Except.ok (c, e)
      unfold runEvents
      have ht : tickTimer id c e = Except.ok (c, e) := by
        unfold tickTimer
        rw [he]
        rfl
      rw [ht]
      exact ih c e he

/- ### Render lemmas -/

theorem toggleNodes_any (s : IWebchatSettings) (c : Component) :
    (toggleNodes s c).any UINode.isHeader = false ∧
    (toggleNodes s c).any UINode.isHistory = false ∧
    (toggleNodes s c).any UINode.isInput = false ∧
    (toggleNodes s c).any UINode.isFullscreen = false ∧
    (toggleNodes s c).any UINode.isOverlay = false := by
  unfold toggleNodes
  split
  · simp
  · split <;>
      simp [UINode.isHeader, UINode.isHistory, UINode.isInput,
        UINode.isFullscreen, UINode.isOverlay]

theorem regularLayoutNodes_any (s : IWebchatSettings) (c : Component) :
    (regularLayoutNodes s c).any UINode.isHeader = true ∧
    (regularLayoutNodes s c).any UINode.isHistory = true ∧
    (regularLayoutNodes s c).any UINode.isInput = true ∧
    (regularLayoutNodes s c).any UINode.isFullscreen = false ∧
    (regularLayoutNodes s c).any UINode.isOverlay = false := by
  unfold regularLayoutNodes
  simp [UINode.isHeader, UINode.isHistory, UINode.isInput,
    UINode.isFullscreen, UINode.isOverlay]

theorem panelNodes_any_overlay (s : IWebchatSettings) (c : Component) :
    (panelNodes s c).any UINode.isOverlay =
      (c.props.«open» && showDisconnectOverlayOf s c) := by
  unfold panelNodes
  split
  · rename_i ho
    rw [ho, Bool.true_and, List.any_append]
    have hl : (match c.props.fullscreenMessage with
        | none => regularLayoutNodes s c
        | some m => [UINode.fullScreenMessage m]).any UINode.isOverlay = false := by
      cases c.props.fullscreenMessage with
      | none => exact (regularLayoutNodes_any s c).2.2.2.2
      | some m => rfl
    rw [hl, Bool.false_or]
    split
    · rename_i hd
      rw [hd]
      rfl
    · rename_i hd
      rw [Bool.not_eq_true] at hd
      rw [hd]
      rfl
  · rename_i ho
    rw [Bool.not_eq_true] at ho
    rw [ho, Bool.false_and]
    rfl

theorem panelNodes_open_regular (s : IWebchatSettings) (c : Component)
    (hopen : c.props.«open» = true) (hfull : c.props.fullscreenMessage = none) :
    (panelNodes s c).any UINode.isHeader = true ∧
    (panelNodes s c).any UINode.isHistory = true ∧
    (panelNodes s c).any UINode.isInput = true ∧
    (panelNodes s c).any UINode.isFullscreen = false := by
  unfold panelNodes
  rw [hopen, hfull]
  simp only [if_true, List.any_append]
  have hr := regularLayoutNodes_any s c
  refine ⟨?_, ?_, ?_, ?_⟩ <;>
    [rw [hr.1]; rw [hr.2.1]; rw [hr.2.2.1]; rw [hr.2.2.2.1]] <;>
    split <;> simp [UINode.isHeader, UINode.isHistory, UINode.isInput,
      UINode.isFullscreen, UINode.isOverlay]

theorem panelNodes_open_fullscreen (s : IWebchatSettings) (c : Component)
    (m : IMessage)
    (hopen : c.props.«open» = true) (hfull : c.props.fullscreenMessage = some m) :
    (panelNodes s c).any UINode.isHeader = false ∧
    (panelNodes s c).any UINode.isHistory = false ∧
    (panelNodes s c).any UINode.isInput = false ∧
    (panelNodes s c).any UINode.isFullscreen = true := by
  unfold panelNodes
  rw [hopen, hfull]
  simp only [if_true, List.any_append]
  refine ⟨?_, ?_, ?_, ?_⟩ <;>
    split <;> simp [UINode.isHeader, UINode.isHistory, UINode.isInput,
      UINode.isFullscreen, UINode.isOverlay]

theorem hasNode_render (c : Component) (s : IWebchatSettings) (p : UINode → Bool)
    (hs : c.props.config.settings = some s) (ha : c.props.config.active = true) :
    hasNode p (render c) = (panelNodes s c ++ toggleNodes s c).any p := by
  unfold render
  rw [hs]
  unfold renderCore
  rw [ha]
  rfl

theorem render_inactive (c : Component) (s : IWebchatSettings)
    (hs : c.props.config.settings = some s) (ha : c.props.config.active = false) :
    render c = Except.ok none := by
  unfold render
  rw [hs]
  unfold renderCore
  rw [ha]
  rfl

/- ### Concrete instances used by witnesses and counterexamples -/

/-- A browser environment before mounting: some page title, no timers. -/
def envW : Env :=
  { docTitle := "Site", liveTimers := [], nextTimerId := 0, soundPlays := 0 }

/-- A minimal active props object: empty settings block, closed, offline. -/
def propsBase : WebchatUIProps :=
  { messages := []
  , unseenMessages := []
  , unseenMessagesRef := 0
  , fullscreenMessage := none
  , config := { active := true, settings := some noSettings }
  , «open» := false
  , messagePlugins := none
  , inputPlugins := []
  , inputMode := "text"
  , connected := false
  , reconnectionLimit := false }

/-- Props whose config has no settings block at all. -/
def missingSettingsProps : WebchatUIProps :=
  { propsBase with config := { active := true, settings := none } }

/-- A freshly constructed (not yet mounted) component on the missing-settings
props. -/
def cMissing : Component := newComponent missingSettingsProps envW

/-- The component that mounting `propsBase` produces. -/
def mountedBase : Component :=
  { props := propsBase
  , state := { theme := createWebchatTheme none
             , messagePlugins := [regularMessagePlugin]
             , inputPlugins := [textInputPlugin]
             , hadConnection := false
             , lastUnseenMessageText := "" }
  , unreadTitleIndicatorInterval := none
  , originalTitle := "Site"
  , titleType := TitleType.original }

/-- `propsBase` with the transport connected. -/
def propsConn : WebchatUIProps := { propsBase with connected := true }

/-- `mountedBase` after the connection latched. -/
def cLatched : Component :=
  { mountedBase with state := { mountedBase.state with hadConnection := true } }

/-- Settings enabling only the connection-status indicator. -/
def settingsConn : IWebchatSettings :=
  { noSettings with enableConnectionStatusIndicator := some true }

/-- Closed widget, indicator enabled, offline, after a successful
connection: the three conditions of the claim hold, the widget is merely
closed. -/
def c7x : Component :=
  { props := { propsBase with config := { active := true, settings := some settingsConn } }
  , state := { initialState with hadConnection := true }
  , unreadTitleIndicatorInterval := none
  , originalTitle := "Site"
  , titleType := TitleType.original }

/-- `c7x` with the widget open. -/
def c7open : Component :=
  { c7x with props := { c7x.props with «open» := true } }

/-- Open widget, no fullscreen message, with a pending teaser text. -/
def c6x : Component :=
  { props := { propsBase with «open» := true }
  , state := { initialState with lastUnseenMessageText := "Hello" }
  , unreadTitleIndicatorInterval := none
  , originalTitle := "Site"
  , titleType := TitleType.original }

/-- Open widget, no fullscreen message. -/
def c9x : Component :=
  { props := { propsBase with «open» := true }
  , state := initialState
  , unreadTitleIndicatorInterval := none
  , originalTitle := "Site"
  , titleType := TitleType.original }

/-- `c9x` with a fullscreen message set. -/
def c9full : Component :=
  { c9x with props := { c9x.props with fullscreenMessage := some ⟨"Gallery"⟩ } }

/-- Inactive config with no settings block. -/
def c10x : Component :=
  newComponent { propsBase with config := { active := false, settings := none } } envW

/-- Inactive config with an (empty) settings block. -/
def c10y : Component :=
  newComponent { propsBase with config := { active := false, settings := some noSettings } } envW

/-- A freshly constructed component on `propsBase`. -/
def cFresh : Component := newComponent propsBase envW

/-- `cFresh` holding the title-indicator timer with handle 0. -/
def cTimer : Component := { cFresh with unreadTitleIndicatorInterval := some 0 }

/-- The environment after timer 0 was registered. -/
def envTimer : Env := { envW with liveTimers := [0], nextTimerId := 1 }

/-- Settings enabling the title indicator, with a configured unread label. -/
def settingsTitle : IWebchatSettings :=
  { noSettings with enableUnreadMessageTitleIndicator := some true
                  , unreadMessageTitleText := some "New messages" }

/-- Props with two unseen messages and the title-indicator settings. -/
def propsUnseen : WebchatUIProps :=
  { propsBase with config := { active := true, settings := some settingsTitle }
                 , unseenMessages := [⟨"Hi"⟩, ⟨"Yo"⟩]
                 , unseenMessagesRef := 1 }

/-- A component in the original title phase with two unseen messages and a
live timer. -/
def cToggle : Component :=
  { props := propsUnseen
  , state := initialState
  , unreadTitleIndicatorInterval := some 0
  , originalTitle := "Site"
  , titleType := TitleType.original }

/-- Settings enabling only the unread-message preview. -/
def settingsPreview : IWebchatSettings :=
  { noSettings with enableUnreadMessagePreview := some true }

/-- Active props with the preview enabled and no unseen messages. -/
def propsPreviewA : WebchatUIProps :=
  { propsBase with config := { active := true, settings := some settingsPreview } }

/-- A mounted component on `propsPreviewA`. -/
def cPrev : Component :=
  { props := propsPreviewA
  , state := { initialState with messagePlugins := [regularMessagePlugin]
                               , inputPlugins := [textInputPlugin] }
  , unreadTitleIndicatorInterval := none
  , originalTitle := "Site"
  , titleType := TitleType.original }

/-- `propsPreviewA` after one unseen message arrived (fresh array identity). -/
def propsPreviewB : WebchatUIProps :=
  { propsPreviewA with unseenMessages := [⟨"Hello"⟩], unseenMessagesRef := 1 }

/-- `cPrev` after the update to `propsPreviewB`. -/
def cPrevB : Component :=
  { cPrev with props := propsPreviewB
             , state := { cPrev.state with lastUnseenMessageText := "Hello" } }

/- ### The claims -/

/-- C1: the claim says mount, update and render never throw when the
settings block or any individual setting is absent.  The code violates the
first half: `componentDidMount`, `componentDidUpdate` and `render` all read
`config.settings.<field>` without the guard that `getDerivedStateFromProps`
uses, so a props object whose config has no settings block makes all three
throw a TypeError.  With a present-but-empty settings block every operation
succeeds and every feature stays off (no timer is started). -/
theorem claim_C1_missing_settings :
    mountComponent missingSettingsProps envW = Except.error settingsErrorMsg ∧
    updateStep cMissing envW missingSettingsProps = Except.error settingsErrorMsg ∧
    render cMissing = Except.error settingsErrorMsg ∧
    mountComponent propsBase envW = Except.ok (mountedBase, envW) ∧
    mountedBase.unreadTitleIndicatorInterval = none ∧
    exceptOk (updateStep mountedBase envW propsBase) = true ∧
    render mountedBase = Except.ok (some [UINode.toggleButton false none]) :=
  ⟨rfl, rfl, rfl, rfl, rfl, rfl, rfl⟩

/-- C6: the claim says the teaser bubble is never rendered while the widget
is open.  The code renders the teaser whenever the preview text is non-empty
and the toggle button is not disabled, with no check of `open` — contradicting
the source's own comment ("... and the webchat is closed"): an open widget
with a pending preview text still shows the teaser. -/
theorem claim_C6_teaser_shown_while_open :
    c6x.props.«open» = true ∧
    c6x.props.fullscreenMessage = none ∧
    c6x.props.config.settings = some noSettings ∧
    truthy noSettings.disableToggleButton = false ∧
    c6x.state.lastUnseenMessageText = "Hello" ∧
    hasNode UINode.isTeaser (render c6x) = true := by
  exact ⟨rfl, rfl, rfl, rfl, rfl, by decide⟩

/-- C7 counterexample: all three conditions of the claim hold — indicator
enabled, disconnected, hadConnection — yet no disconnect overlay is
rendered, because the widget is closed (the overlay lives inside the
`open && ...` block). -/
theorem claim_C7_counterexample :
    c7x.props.config.settings = some settingsConn ∧
    c7x.props.config.active = true ∧
    truthy settingsConn.enableConnectionStatusIndicator = true ∧
    c7x.props.connected = false ∧
    c7x.state.hadConnection = true ∧
    hasNode UINode.isOverlay (render c7x) = false := by
  exact ⟨rfl, rfl, rfl, rfl, rfl, by decide⟩

/-- C7 (amended): for an active config with a present settings block, the
disconnect overlay is rendered exactly when the widget is open AND the
connection-status indicator is enabled, the transport is disconnected and a
connection had been established before. -/
theorem claim_C7_overlay_characterization :
    ∀ (c : Component) (s : IWebchatSettings),
      c.props.config.settings = some s → c.props.config.active = true →
      hasNode UINode.isOverlay (render c) =
        (c.props.«open» &&
          (truthy s.enableConnectionStatusIndicator && !c.props.connected
            && c.state.hadConnection)) := by
  intro c s hs ha
  rw [hasNode_render c s _ hs ha, List.any_append, panelNodes_any_overlay,
      (toggleNodes_any s c).2.2.2.2, Bool.or_false]
  rfl

/-- C7 witness: the characterization applied to an open, disconnected,
previously connected component — the overlay is rendered. -/
theorem claim_C7_witness :
    hasNode UINode.isOverlay (render c7open) =
      (c7open.props.«open» &&
        (truthy settingsConn.enableConnectionStatusIndicator
          && !c7open.props.connected && c7open.state.hadConnection)) :=
  claim_C7_overlay_characterization c7open settingsConn rfl rfl

/-- C9: for an active, open widget the layout is selected solely by the
fullscreenMessage prop: without it the regular layout (header, history,
input) renders and no fullscreen view appears; with it only the fullscreen
view renders and header, history and input are all absent. -/
theorem claim_C9_layout_switch :
    ∀ (c : Component) (s : IWebchatSettings),
      c.props.config.settings = some s → c.props.config.active = true →
      c.props.«open» = true →
      ((c.props.fullscreenMessage = none →
          hasNode UINode.isHeader (render c) = true ∧
          hasNode UINode.isHistory (render c) = true ∧
          hasNode UINode.isInput (render c) = true ∧
          hasNode UINode.isFullscreen (render c) = false) ∧
        (∀ m : IMessage, c.props.fullscreenMessage = some m →
          hasNode UINode.isFullscreen (render c) = true ∧
          hasNode UINode.isHeader (render c) = false ∧
          hasNode UINode.isHistory (render c) = false ∧
          hasNode UINode.isInput (render c) = false)) := by
  intro c s hs ha ho
  have ht := toggleNodes_any s c
  constructor
  · intro hfull
    have hp := panelNodes_open_regular s c ho hfull
    refine ⟨?_, ?_, ?_, ?_⟩ <;>
      rw [hasNode_render c s _ hs ha, List.any_append]
    · rw [hp.1, ht.1]
      rfl
    · rw [hp.2.1, ht.2.1]
      rfl
    · rw [hp.2.2.1, ht.2.2.1]
      rfl
    · rw [hp.2.2.2, ht.2.2.2.1]
      rfl
  · intro m hfull
    have hp := panelNodes_open_fullscreen s c m ho hfull
    refine ⟨?_, ?_, ?_, ?_⟩ <;>
      rw [hasNode_render c s _ hs ha, List.any_append]
    · rw [hp.2.2.2, ht.2.2.2.1]
      rfl
    · rw [hp.1, ht.1]
      rfl
    · rw [hp.2.1, ht.2.1]
      rfl
    · rw [hp.2.2.1, ht.2.2.1]
      rfl

/-- C9 witness: the layout switch applied to a concrete open widget, without
and with a fullscreen message. -/
theorem claim_C9_witness :
    (hasNode UINode.isHeader (render c9x) = true ∧
      hasNode UINode.isHistory (render c9x) = true ∧
      hasNode UINode.isInput (render c9x) = true ∧
      hasNode UINode.isFullscreen (render c9x) = false) ∧
    (hasNode UINode.isFullscreen (render c9full) = true ∧
      hasNode UINode.isHeader (render c9full) = false ∧
      hasNode UINode.isHistory (render c9full) = false ∧
      hasNode UINode.isInput (render c9full) = false) :=
  ⟨(claim_C9_layout_switch c9x noSettings rfl rfl rfl).1 rfl,
   (claim_C9_layout_switch c9full noSettings rfl rfl rfl).2 ⟨"Gallery"⟩ rfl⟩

/-- C10 counterexample: an inactive config whose settings block is absent
does not make render return null — `render` destructures `config.settings`
on line 275, before the `active` check on line 277, so it throws instead. -/
theorem claim_C10_counterexample :
    c10x.props.config.active = false ∧
    render c10x = Except.error settingsErrorMsg :=
  ⟨rfl, rfl⟩

/-- C10 (amended): for every component whose config is inactive and has a
present settings block, render returns null — no panel, overlay, teaser or
toggle button. -/
theorem claim_C10_inactive_renders_null :
    ∀ (c : Component) (s : IWebchatSettings),
      c.props.config.settings = some s → c.props.config.active = false →
      render c = Except.ok none :=
  fun c s hs ha => render_inactive c s hs ha

/-- C10 witness: the amended claim applied to a concrete inactive component
with an open widget prop and an empty settings block. -/
theorem claim_C10_witness : render c10y = Except.ok none :=
  claim_C10_inactive_renders_null c10y noSettings rfl rfl

/-- C2: mounting resolves the plugin lists once — host message list (empty
when absent) plus the built-in regular-message plugin, host input list plus
the built-in text-input plugin; each resolved list ends with the built-in
default, which occurs exactly once when the host did not itself supply it;
and no sequence of prop updates ever changes the resolved lists. -/
theorem claim_C2_plugin_resolution :
    (∀ (p : WebchatUIProps) (e : Env) (c0 : Component) (e0 : Env),
        mountComponent p e = Except.ok (c0, e0) →
        c0.state.messagePlugins = p.messagePlugins.getD [] ++ [regularMessagePlugin] ∧
        c0.state.inputPlugins = p.inputPlugins ++ [textInputPlugin] ∧
        c0.state.messagePlugins.getLast? = some regularMessagePlugin ∧
        c0.state.inputPlugins.getLast? = some textInputPlugin ∧
        (regularMessagePlugin ∉ p.messagePlugins.getD [] →
          c0.state.messagePlugins.count regularMessagePlugin = 1) ∧
        (textInputPlugin ∉ p.inputPlugins →
          c0.state.inputPlugins.count textInputPlugin = 1)) ∧
    (∀ (ps : List WebchatUIProps) (c : Component) (e : Env)
        (c' : Component) (e' : Env),
        runUpdates ps c e = Except.ok (c', e') →
        c'.state.messagePlugins = c.state.messagePlugins ∧
        c'.state.inputPlugins = c.state.inputPlugins) := by
  constructor
  · intro p e c0 e0 h
    obtain ⟨hm, hi⟩ := mountComponent_plugins p e c0 e0 h
    refine ⟨hm, hi, ?_, ?_, ?_, ?_⟩
    · rw [hm]
      exact List.getLast?_concat _
    · rw [hi]
      exact List.getLast?_concat _
    · intro hmem
      rw [hm, List.count_append, List.count_eq_zero.mpr hmem]
      simp
    · intro hmem
      rw [hi, List.count_append, List.count_eq_zero.mpr hmem]
      simp
  · exact fun ps c e c' e' h => runUpdates_plugins ps c e c' e' h

/-- C2 witness: the resolution applied to a concrete mount and a concrete
two-update run. -/
theorem claim_C2_witness :
    mountedBase.state.messagePlugins
        = propsBase.messagePlugins.getD [] ++ [regularMessagePlugin] ∧
    mountedBase.state.inputPlugins = propsBase.inputPlugins ++ [textInputPlugin] ∧
    mountedBase.state.messagePlugins.count regularMessagePlugin = 1 ∧
    cLatched.state.messagePlugins = mountedBase.state.messagePlugins :=
  ⟨(claim_C2_plugin_resolution.1 propsBase envW mountedBase envW rfl).1,
   (claim_C2_plugin_resolution.1 propsBase envW mountedBase envW rfl).2.1,
   (claim_C2_plugin_resolution.1 propsBase envW mountedBase envW rfl).2.2.2.2.1
     (by decide),
   (claim_C2_plugin_resolution.2 [propsConn, propsBase] mountedBase envW
     cLatched envW rfl).1⟩

/-- C3: hadConnection starts false; after mounting it equals the mount
props' connected flag, and over any successful update run the final value is
the initial value OR-ed with "some update had connected = true" — so it
flips false-to-true at most once, on the first connected update, and never
reverts on later disconnected updates. -/
theorem claim_C3_hadConnection_latch :
    initialState.hadConnection = false ∧
    (∀ (p : WebchatUIProps) (e : Env) (c0 : Component) (e0 : Env),
        mountComponent p e = Except.ok (c0, e0) →
        c0.state.hadConnection = p.connected) ∧
    (∀ (ps : List WebchatUIProps) (c : Component) (e : Env)
        (c' : Component) (e' : Env),
        runUpdates ps c e = Except.ok (c', e') →
        c'.state.hadConnection =
          (c.state.hadConnection || ps.any fun q => q.connected)) :=
  ⟨rfl, mountComponent_hadConnection,
   fun ps => runUpdates_hadConnection ps⟩

/-- C3 witness: the latch applied to a concrete connect-then-disconnect run:
the flag stays true after the disconnected update. -/
theorem claim_C3_witness :
    mountedBase.state.hadConnection = propsBase.connected ∧
    cLatched.state.hadConnection =
      (mountedBase.state.hadConnection || [propsConn, propsBase].any fun q => q.connected) :=
  ⟨claim_C3_hadConnection_latch.2.1 propsBase envW mountedBase envW rfl,
   claim_C3_hadConnection_latch.2.2 [propsConn, propsBase] mountedBase envW
     cLatched envW rfl⟩

/-- C4: starting the title indicator is idempotent (a second start on an
already started component changes nothing); from a fresh environment every
mount and every run of updates and timer ticks keeps the single-timer
invariant, so at most one timer is ever live; unmounting clears the handle
and cancels the timer; and after unmount any number of timer ticks leaves
component and environment — in particular the document title — untouched. -/
theorem claim_C4_title_indicator_single_timer :
    (∀ (c : Component) (e : Env) (c1 : Component) (e1 : Env),
        initializeTitleIndicator c e = (c1, e1) →
        initializeTitleIndicator c1 e1 = (c1, e1)) ∧
    (∀ (p : WebchatUIProps) (e : Env) (c0 : Component) (e0 : Env),
        e.liveTimers = [] → mountComponent p e = Except.ok (c0, e0) →
        timerInv c0 e0) ∧
    (∀ (evs : List UIEvent) (c : Component) (e : Env) (c' : Component) (e' : Env),
        timerInv c e → runEvents evs c e = Except.ok (c', e') →
        timerInv c' e' ∧ e'.liveTimers.length ≤ 1) ∧
    (∀ (c : Component) (e : Env), timerInv c e →
        (componentWillUnmount c e).1.unreadTitleIndicatorInterval = none ∧
        (componentWillUnmount c e).2.liveTimers = [] ∧
        (∀ ids : List Nat,
          runEvents (ids.map UIEvent.tick) (componentWillUnmount c e).1
              (componentWillUnmount c e).2 =
            Except.ok ((componentWillUnmount c e).1, (componentWillUnmount c e).2))) := by
  refine ⟨?_, ?_, ?_, ?_⟩
  · intro c e c1 e1 h
    have h1 : c1 = (initializeTitleIndicator c e).1 := by rw [h]
    have h2 : e1 = (initializeTitleIndicator c e).2 := by rw [h]
    rw [h1, h2, initializeTitleIndicator_idem]
  · intro p e c0 e0 he h
    exact mountComponent_timerInv p e c0 e0 h he
  · intro evs c e c' e' hinv h
    have h1 := runEvents_timerInv evs c e c' e' h hinv
    exact ⟨h1, timerInv_length c' e' h1⟩
  · intro c e hinv
    have h1 := componentWillUnmount_clears c e hinv
    exact ⟨h1.1, h1.2, fun ids => runTicks_frozen ids _ _ h1.2⟩

/-- C4 witness: starting twice on a concrete running component is a no-op,
and unmounting it cancels the timer. -/
theorem claim_C4_witness :
    initializeTitleIndicator cTimer envTimer = (cTimer, envTimer) ∧
    (componentWillUnmount cTimer envTimer).1.unreadTitleIndicatorInterval = none ∧
    (componentWillUnmount cTimer envTimer).2.liveTimers = [] :=
  ⟨claim_C4_title_indicator_single_timer.1 cFresh envW cTimer envTimer rfl,
   (claim_C4_title_indicator_single_timer.2.2.2 cTimer envTimer rfl).1,
   (claim_C4_title_indicator_single_timer.2.2.2 cTimer envTimer rfl).2.1⟩

/-- C5: each toggle tick reads the live unseen count: in the unread phase it
restores the captured original title; in the original phase with a zero
count it changes nothing (keeping the title, which the phase invariant shows
is the original one); with a positive count it shows "(N) label" where N is
the count read from the current props at toggle time; and every tick
preserves the captured original title and the invariant that in the original
phase the document title is the original title. -/
theorem claim_C5_toggle_live_count :
    (∀ (c : Component) (e : Env), c.titleType = TitleType.unread →
        toggleTitleIndicator c e =
          Except.ok ({ c with titleType := TitleType.original },
            { e with docTitle := c.originalTitle })) ∧
    (∀ (c : Component) (e : Env), c.titleType = TitleType.original →
        c.props.unseenMessages.length = 0 →
        toggleTitleIndicator c e = Except.ok (c, e)) ∧
    (∀ (c : Component) (e : Env) (s : IWebchatSettings),
        c.titleType = TitleType.original →
        c.props.config.settings = some s →
        c.props.unseenMessages.length > 0 →
        toggleTitleIndicator c e =
          Except.ok ({ c with titleType := TitleType.unread },
            { e with docTitle := "(" ++ toString c.props.unseenMessages.length ++ ") " ++ jsDisplay s.unreadMessageTitleText })) ∧
    (∀ (c : Component) (e : Env) (c' : Component) (e' : Env),
        toggleTitleIndicator c e = Except.ok (c', e') →
        (c.titleType = TitleType.original → e.docTitle = c.originalTitle) →
        c'.originalTitle = c.originalTitle ∧
        (c'.titleType = TitleType.original → e'.docTitle = c'.originalTitle)) := by
  refine ⟨?_, ?_, ?_, ?_⟩
  · intro c e h
    unfold toggleTitleIndicator
    rw [h]
  · intro c e h h0
    unfold toggleTitleIndicator
    rw [h, h0]
    rfl
  · intro c e s h hs hl
    unfold toggleTitleIndicator
    rw [h]
    rw [if_pos hl, hs]
  · intro c e c' e' h hinv
    unfold toggleTitleIndicator at h
    split at h
    · injection h with h
      have h1 : c' = { c with titleType := TitleType.original } :=
        (congrArg Prod.fst h).symm
      have h2 : e' = { e with docTitle := c.originalTitle } :=
        (congrArg Prod.snd h).symm
      rw [h1, h2]
      exact ⟨rfl, fun _ => rfl⟩
    · rename_i horig
      split at h
      · split at h
        · exact absurd h (by simp)
        · injection h with h
          have h1 : c' = { c with titleType := TitleType.unread } :=
            (congrArg Prod.fst h).symm
          refine ⟨by rw [h1], ?_⟩
          intro hty
          rw [h1] at hty
          simp at hty
      · injection h with h
        have h1 : c' = c := (congrArg Prod.fst h).symm
        have h2 : e' = e := (congrArg Prod.snd h).symm
        rw [h1, h2]
        exact ⟨rfl, fun hty => hinv hty⟩

/-- C5 witness: a tick on a concrete component with two unseen messages in
the original phase displays "(2) New messages" and switches to the unread
phase. -/
theorem claim_C5_witness :
    toggleTitleIndicator cToggle envTimer =
      Except.ok ({ cToggle with titleType := TitleType.unread },
        { envTimer with docTitle := "(2) New messages" }) :=
  claim_C5_toggle_live_count.2.2.1 cToggle envTimer settingsTitle rfl rfl
    (by decide)

/-- C8: the preview text is empty after every successful mount; a run of
updates in which the preview feature is never enabled leaves it unchanged
(hence empty for a whole disabled run); and an update that changes the
unseen-list identity while the feature is enabled recomputes it as the text
of the last unseen message, or the empty string for an empty list. -/
theorem claim_C8_preview_text :
    (∀ (p : WebchatUIProps) (e : Env) (c0 : Component) (e0 : Env),
        mountComponent p e = Except.ok (c0, e0) →
        c0.state.lastUnseenMessageText = "") ∧
    (∀ (ps : List WebchatUIProps) (c : Component) (e : Env)
        (c' : Component) (e' : Env),
        runUpdates ps c e = Except.ok (c', e') →
        (∀ p ∈ ps, previewFlag p = false) →
        c'.state.lastUnseenMessageText = c.state.lastUnseenMessageText) ∧
    (∀ (c : Component) (e : Env) (p : WebchatUIProps)
        (c' : Component) (e' : Env) (s : IWebchatSettings),
        updateStep c e p = Except.ok (c', e') →
        p.config.settings = some s →
        truthy s.enableUnreadMessagePreview = true →
        c.props.unseenMessagesRef ≠ p.unseenMessagesRef →
        c'.state.lastUnseenMessageText = lastTextOf p.unseenMessages) :=
  ⟨mountComponent_lastText,
   fun ps => runUpdates_lastText_off ps,
   fun c e p c' e' s h hs hon href =>
     updateStep_lastText_on c e p c' e' s h hs hon href⟩

/-- C8 witness: the recomputation applied to a concrete enabled update
(preview text becomes "Hello"), and the empty text after a concrete mount
with the feature absent. -/
theorem claim_C8_witness :
    cPrevB.state.lastUnseenMessageText = lastTextOf propsPreviewB.unseenMessages ∧
    mountedBase.state.lastUnseenMessageText = "" :=
  ⟨claim_C8_preview_text.2.2 cPrev envW propsPreviewB cPrevB envW
     settingsPreview rfl rfl rfl (by decide),
   claim_C8_preview_text.1 propsBase envW mountedBase envW rfl⟩

end Webchat
